import Mathlib

/-!
Verification of the render-harness logic of `src/OpenGL/OpenGL.cpp`.

The program is a single `main` function: GLFW/GLAD initialisation, shader
compilation with partial error checking, a render loop that animates a
horizontal offset uniform with wraparound "ghost" draws, frame pacing to a
60 FPS target, and teardown.  We embed the pure per-frame arithmetic over ℚ
(the code uses `float`/`double`; we model the exact real arithmetic of the
decimal literals appearing in the source) and the side-effecting structure
as an explicit list of events produced by an environment of external
outcomes (window creation, GLAD loading, shader compile/link results, and
the per-frame `deltaTime` values observed from the clock).
-/

namespace OpenGLApp

/-- Offset wrap from lines 163-164: `if (offsetX >= 1.0f) offsetX = -1.0f;`. -/
def wrap (x : ℚ) : ℚ :=
  if 1 ≤ x then -1 else x

/-- Movement speed from line 146: `float speed = 0.5f;`. -/
def speed : ℚ := 1/2

/-- Per-frame offset update, lines 162-164:
`offsetX += speed * deltaTime; if (offsetX >= 1.0f) offsetX = -1.0f;`. -/
def updateOffset (offsetX dt : ℚ) : ℚ :=
  wrap (offsetX + speed * dt)

/-- Offset after running the update once per frame over the given list of
`deltaTime` values, starting from `float offsetX = 0.0f;` (line 145). -/
def runOffsets (dts : List ℚ) : ℚ :=
  dts.foldl updateOffset 0

/-- Frame-rate target, lines 148-149: `targetFPS = 60.0; targetFrameTime = 1.0 / targetFPS;`. -/
def targetFrameTime : ℚ := 1 / 60

/-- Frame-pacing sleep from lines 196-199: sleep for
`targetFrameTime - frameDuration` exactly when `frameDuration < targetFrameTime`,
else do not sleep (duration 0). -/
def sleepDuration (frameDuration : ℚ) : ℚ :=
  if frameDuration < targetFrameTime then targetFrameTime - frameDuration else 0

/-- Observable events issued by `main`, in program order. -/
inductive Event where
  | logVertexError (cap : Nat)
  | logLinkError (cap : Nat)
  | uniform2f (x y : ℚ)
  | drawArrays
  | deleteVertexArrays
  | deleteBuffers
  | deleteProgram
  | terminate
  | exitWith (code : Int)
  deriving DecidableEq, Repr

/-- Ghost draws of one frame, lines 178-187: one extra uniform write and draw
when `offsetX > 0.5f`, one when `offsetX < -0.5f` (mutually exclusive
`if`/`else if`), none otherwise. -/
def ghostDraws (offsetX : ℚ) : List Event :=
  if offsetX > 1/2 then
    [Event.uniform2f (offsetX - 2) 0, Event.drawArrays]
  else if offsetX < -(1/2) then
    [Event.uniform2f (offsetX + 2) 0, Event.drawArrays]
  else []

/-- All uniform writes and draw calls of one frame, lines 174-187: the main
triangle (`glUniform2f(offsetLocation, offsetX, 0.0f); glDrawArrays(...)`)
followed by the ghost draws. -/
def frameDraws (offsetX : ℚ) : List Event :=
  [Event.uniform2f offsetX 0, Event.drawArrays] ++ ghostDraws offsetX

/-- Whether an event is a `glDrawArrays` call. -/
def isDrawCall : Event → Bool
  | Event.drawArrays => true
  | _ => false

/-- Whether an event is a `glUniform2f` write of the offset uniform. -/
def isUniformWrite : Event → Bool
  | Event.uniform2f _ _ => true
  | _ => false

/-- Number of draw calls in an event list. -/
def drawCallCount (es : List Event) : Nat :=
  (es.filter isDrawCall).length

/-- Number of offset-uniform writes in an event list. -/
def uniformWriteCount (es : List Event) : Nat :=
  (es.filter isUniformWrite).length

/-- Outcomes of the external calls `main` makes: window creation (line 34),
GLAD loading (line 44), and the GL status queries for the vertex-shader
compile (line 84) and the program link (line 113).  The fragment-shader
compile outcome is part of the environment as well, though the code never
queries it. -/
structure Env where
  windowOk : Bool
  gladOk : Bool
  vertexCompileOk : Bool
  fragmentCompileOk : Bool
  linkOk : Bool
  deriving DecidableEq, Repr

/-- Diagnostic logs produced during shader setup, lines 82-118: the vertex
compile status is checked and logged into a 512-byte buffer on failure
(lines 84-89), the link status likewise (lines 113-118); the fragment
compile status is never queried (lines 103-105 have no check). -/
def shaderDiagnostics (env : Env) : List Event :=
  (if env.vertexCompileOk then [] else [Event.logVertexError 512]) ++
  (if env.linkOk then [] else [Event.logLinkError 512])

/-- Render-loop events, lines 152-200: each iteration updates the offset from
the observed `deltaTime` and issues the frame's uniform writes and draws. -/
def renderLoop (offsetX : ℚ) (dts : List ℚ) : List Event :=
  match dts with
  | [] => []
  | dt :: rest =>
      let off := updateOffset offsetX dt
      frameDraws off ++ renderLoop off rest

/-- Teardown events, lines 203-208:
`glDeleteVertexArrays; glDeleteBuffers; glDeleteProgram; glfwTerminate;`. -/
def shutdownEvents : List Event :=
  [Event.deleteVertexArrays, Event.deleteBuffers, Event.deleteProgram, Event.terminate]

/-- Exit code of `main`: `-1` when window creation fails (line 39), `-1` when
GLAD loading fails (line 47), else `0` (line 209). -/
def mainExit (env : Env) : Int :=
  if env.windowOk = false then -1
  else if env.gladOk = false then -1
  else 0

/-- Full event trace of `main` given the external outcomes and the per-frame
`deltaTime` values observed until the close signal ends the loop:
window-creation failure calls `glfwTerminate()` then returns `-1`
(lines 35-40); GLAD failure returns `-1` with no teardown (lines 44-48);
otherwise shader diagnostics, the render loop, teardown, and `return 0`. -/
def mainTrace (env : Env) (dts : List ℚ) : List Event :=
  if env.windowOk = false then
    [Event.terminate, Event.exitWith (-1)]
  else if env.gladOk = false then
    [Event.exitWith (-1)]
  else
    shaderDiagnostics env ++ renderLoop 0 dts ++ shutdownEvents ++
      [Event.exitWith (mainExit env)]

/-- Whether an event releases a graphics handle or the windowing context. -/
def releasesHandle : Event → Bool
  | Event.deleteVertexArrays => true
  | Event.deleteBuffers => true
  | Event.deleteProgram => true
  | Event.terminate => true
  | _ => false

/-! ### Helper lemmas -/

/-- One offset update from a state at least `-1`, with a non-negative
`deltaTime`, lands in `[-1, 1)`. -/
theorem updateOffset_mem (x dt : ℚ) (hx : -1 ≤ x) (hdt : 0 ≤ dt) :
    -1 ≤ updateOffset x dt ∧ updateOffset x dt < 1 := by
  unfold updateOffset wrap speed
  split
  · constructor <;> norm_num
  · rename_i h
    push_neg at h
    refine ⟨?_, h⟩
    nlinarith

/-- Folding offset updates over non-negative `deltaTime` values from a state
in `[-1, 1)` stays in `[-1, 1)`. -/
theorem foldl_updateOffset_mem (dts : List ℚ) :
    ∀ x : ℚ, -1 ≤ x → x < 1 → (∀ dt ∈ dts, 0 ≤ dt) →
      -1 ≤ dts.foldl updateOffset x ∧ dts.foldl updateOffset x < 1 := by
  induction dts with
  | nil => intro x hx hx' _; exact ⟨hx, hx'⟩
  | cons dt rest ih =>
      intro x hx _ hall
      have hdt : 0 ≤ dt := hall dt (List.mem_cons_self dt rest)
      have hstep := updateOffset_mem x dt hx hdt
      simpa [List.foldl_cons] using
        ih (updateOffset x dt) hstep.1 hstep.2 fun d hd =>
          hall d (List.mem_cons_of_mem dt hd)

/-- No shader-diagnostic event releases a handle. -/
theorem releasesHandle_shaderDiagnostics (env : Env) :
    ∀ e ∈ shaderDiagnostics env, releasesHandle e = false := by
  unfold shaderDiagnostics
  intro e he
  rcases List.mem_append.mp he with h | h <;>
    split_ifs at h <;> simp only [List.mem_singleton, List.not_mem_nil] at h <;>
      first | exact absurd h (by simp) | (subst h; rfl)

/-- No frame draw event releases a handle. -/
theorem releasesHandle_frameDraws (x : ℚ) :
    ∀ e ∈ frameDraws x, releasesHandle e = false := by
  intro e he
  have hcases : e = Event.uniform2f x 0 ∨ e = Event.drawArrays ∨
      e = Event.uniform2f (x - 2) 0 ∨ e = Event.uniform2f (x + 2) 0 := by
    unfold frameDraws ghostDraws at he
    split_ifs at he <;> simp at he <;> tauto
  rcases hcases with rfl | rfl | rfl | rfl <;> rfl

/-- No render-loop event releases a handle. -/
theorem releasesHandle_renderLoop (dts : List ℚ) :
    ∀ x : ℚ, ∀ e ∈ renderLoop x dts, releasesHandle e = false := by
  induction dts with
  | nil => intro x e he; exact absurd he (by simp [renderLoop])
  | cons dt rest ih =>
      intro x e he
      rw [renderLoop] at he
      rcases List.mem_append.mp he with h | h
      · exact releasesHandle_frameDraws _ e h
      · exact ih _ e h

/-! ### Claims -/

/-- C1 counterexample: the claim `wrap(x) = x - 2` for `x ≥ 1` fails on the
code at `x = 3/2` (the code resets to `-1`, not `-1/2`), and the claimed
example value `wrap(0.95 + 0.5 * 0.1) = -0.95` fails too: the update yields
`-1`, not `-0.95`. -/
theorem wrap_claim_false :
    wrap (3/2) ≠ (3/2 : ℚ) - 2 ∧ updateOffset (19/20) (1/10) ≠ -(19/20) := by
  constructor <;> norm_num [updateOffset, wrap, speed]

/-- C1 (amended): the per-frame offset-wrap function resets to `-1` whenever
`x ≥ 1` (agreeing with `x - 2` only at `x = 1`); in particular, with offset
`0.95`, speed `0.5` and `dt = 0.1`, the wrapped result equals `-1`. -/
theorem wrap_ge_one_eq_neg_one :
    (∀ x : ℚ, 1 ≤ x → wrap x = -1) ∧ updateOffset (19/20) (1/10) = -1 := by
  constructor
  · intro x hx
    unfold wrap
    exact if_pos hx
  · unfold updateOffset wrap speed; norm_num

/-- C1 witness: the amended theorem applied at `x = 2`. -/
theorem wrap_ge_one_eq_neg_one_witness : wrap 2 = -1 :=
  wrap_ge_one_eq_neg_one.1 2 (by norm_num)

/-- C2: starting from the initial offset `0`, after every per-frame update
`offset(t) = wrap(offset(t-1) + speed * dt)` with non-negative `deltaTime`
values, the offset lies in the half-open interval `[-1, 1)`. -/
theorem runOffsets_mem_Ico (dts : List ℚ) (h : ∀ dt ∈ dts, 0 ≤ dt) :
    -1 ≤ runOffsets dts ∧ runOffsets dts < 1 := by
  unfold runOffsets
  exact foldl_updateOffset_mem dts 0 (by norm_num) (by norm_num) h

/-- C2 witness: the invariant evaluated on the concrete frame times
`[1/10, 3, 1/10]`. -/
theorem runOffsets_mem_Ico_witness :
    -1 ≤ runOffsets [1/10, 3, 1/10] ∧ runOffsets [1/10, 3, 1/10] < 1 :=
  runOffsets_mem_Ico [1/10, 3, 1/10] (by intro dt hdt; fin_cases hdt <;> norm_num)

/-- C3: each frame issues the one main draw call plus the ghost draws; the
ghost draws number at most two (in fact the `if`/`else if` issues at most
one), at least one fires when the offset crosses `+0.5` or `-0.5`, and none
fires when the offset lies in `[-0.5, 0.5]`. -/
theorem frame_draw_calls (x : ℚ) :
    drawCallCount (frameDraws x) = 1 + drawCallCount (ghostDraws x) ∧
      drawCallCount (ghostDraws x) ≤ 2 ∧
      ((1/2 < x ∨ x < -(1/2)) → 1 ≤ drawCallCount (ghostDraws x)) ∧
      (-(1/2) ≤ x ∧ x ≤ 1/2 → drawCallCount (ghostDraws x) = 0) := by
  unfold frameDraws drawCallCount ghostDraws
  split_ifs with h1 h2
  · exact ⟨by simp [isDrawCall], by simp [isDrawCall],
      fun _ => by simp [isDrawCall], fun hx => absurd h1 (not_lt.mpr hx.2)⟩
  · exact ⟨by simp [isDrawCall], by simp [isDrawCall],
      fun _ => by simp [isDrawCall], fun hx => absurd h2 (not_lt.mpr hx.1)⟩
  · push_neg at h1 h2
    refine ⟨by simp [isDrawCall], by simp, fun hc => ?_, fun _ => by simp⟩
    rcases hc with hc | hc
    · exact absurd hc (not_lt.mpr h1)
    · exact absurd hc (not_lt.mpr h2)

/-- C3 witness: the draw-call accounting evaluated at offsets `0` (no ghost)
and `3/4` (one ghost). -/
theorem frame_draw_calls_witness :
    drawCallCount (ghostDraws 0) = 0 ∧
      1 ≤ drawCallCount (ghostDraws (3/4)) := by
  constructor
  · exact (frame_draw_calls 0).2.2.2 ⟨by norm_num, by norm_num⟩
  · exact (frame_draw_calls (3/4)).2.2.1 (Or.inl (by norm_num))

/-- C8 counterexample: at offset `3/4` the frame writes the offset uniform
twice (main draw and ghost draw), not exactly once. -/
theorem uniform_written_twice :
    uniformWriteCount (frameDraws (3/4)) ≠ 1 := by
  norm_num [uniformWriteCount, frameDraws, ghostDraws, isUniformWrite]

/-- C8 (amended): the 2-component offset uniform is written once for the main
draw plus once more exactly when a ghost draw is issued; in particular it is
written exactly once when the offset lies in `[-0.5, 0.5]`, and twice
otherwise. -/
theorem uniform_writes_per_frame (x : ℚ) :
    uniformWriteCount (frameDraws x) = 1 + uniformWriteCount (ghostDraws x) ∧
      uniformWriteCount (ghostDraws x) ≤ 1 ∧
      (-(1/2) ≤ x ∧ x ≤ 1/2 → uniformWriteCount (frameDraws x) = 1) ∧
      (1/2 < x ∨ x < -(1/2) → uniformWriteCount (frameDraws x) = 2) := by
  unfold frameDraws uniformWriteCount ghostDraws
  split_ifs with h1 h2
  · exact ⟨by simp [isUniformWrite], by simp [isUniformWrite],
      fun hx => absurd h1 (not_lt.mpr hx.2),
      fun _ => by simp [isUniformWrite]⟩
  · exact ⟨by simp [isUniformWrite], by simp [isUniformWrite],
      fun hx => absurd h2 (not_lt.mpr hx.1),
      fun _ => by simp [isUniformWrite]⟩
  · push_neg at h1 h2
    refine ⟨by simp [isUniformWrite], by simp,
      fun _ => by simp [isUniformWrite], fun hc => ?_⟩
    rcases hc with hc | hc
    · exact absurd hc (not_lt.mpr h1)
    · exact absurd hc (not_lt.mpr h2)

/-- C8 witness: the uniform-write accounting evaluated at offsets `0`
(one write) and `3/4` (two writes). -/
theorem uniform_writes_per_frame_witness :
    uniformWriteCount (frameDraws 0) = 1 ∧
      uniformWriteCount (frameDraws (3/4)) = 2 :=
  ⟨(uniform_writes_per_frame 0).2.2.1 ⟨by norm_num, by norm_num⟩,
   (uniform_writes_per_frame (3/4)).2.2.2 (Or.inl (by norm_num))⟩

/-- C9: every offset value passed to a ghost-draw uniform write differs from
the frame's main offset by exactly `2`: it is `offset - 2` when the offset
exceeds `0.5` and `offset + 2` when the offset is below `-0.5`. -/
theorem ghost_uniform_offset (x g y : ℚ)
    (h : Event.uniform2f g y ∈ ghostDraws x) :
    ((1/2 < x ∧ g = x - 2) ∨ (x < -(1/2) ∧ g = x + 2)) ∧
      (g - x = -2 ∨ g - x = 2) := by
  unfold ghostDraws at h
  split_ifs at h with h1 h2
  · simp only [List.mem_cons, List.not_mem_nil, or_false] at h
    rcases h with h | h
    · obtain ⟨hg, -⟩ := Event.uniform2f.inj h
      exact ⟨Or.inl ⟨h1, hg⟩, Or.inl (by rw [hg]; ring)⟩
    · exact absurd h (by simp)
  · simp only [List.mem_cons, List.not_mem_nil, or_false] at h
    rcases h with h | h
    · obtain ⟨hg, -⟩ := Event.uniform2f.inj h
      exact ⟨Or.inr ⟨h2, hg⟩, Or.inr (by rw [hg]; ring)⟩
    · exact absurd h (by simp)
  · exact absurd h (by simp)

/-- C9 witness: the ghost draw at offset `3/4` writes uniform value `-5/4`,
which differs from the main offset by exactly `2`. -/
theorem ghost_uniform_offset_witness :
    ((1/2 < (3/4 : ℚ) ∧ (-(5/4) : ℚ) = 3/4 - 2) ∨
        ((3/4 : ℚ) < -(1/2) ∧ (-(5/4) : ℚ) = 3/4 + 2)) ∧
      ((-(5/4) : ℚ) - 3/4 = -2 ∨ (-(5/4) : ℚ) - 3/4 = 2) :=
  ghost_uniform_offset (3/4) (-(5/4)) 0
    (by norm_num [ghostDraws])

/-- C6: the frame-pacing sleep duration equals
`max(0, targetFrameTime - frameDuration)`; in particular no sleep occurs when
the frame took at least the target frame time. -/
theorem sleepDuration_eq_max (d : ℚ) :
    sleepDuration d = max 0 (targetFrameTime - d) ∧
      (targetFrameTime ≤ d → sleepDuration d = 0) := by
  constructor
  · unfold sleepDuration
    rcases lt_or_le d targetFrameTime with h | h
    · rw [if_pos h, max_eq_right (by linarith)]
    · rw [if_neg (not_lt.mpr h), max_eq_left (by linarith)]
  · intro h
    unfold sleepDuration
    exact if_neg (not_lt.mpr h)

/-- C6 witness: the sleep formula evaluated at frame durations `1/100` (slower
than needed, sleeps) and `1` (slow frame, no sleep). -/
theorem sleepDuration_eq_max_witness :
    sleepDuration (1/100) = max 0 (targetFrameTime - 1/100) ∧ sleepDuration 1 = 0 :=
  ⟨(sleepDuration_eq_max (1/100)).1,
   (sleepDuration_eq_max 1).2 (by unfold targetFrameTime; norm_num)⟩

/-- C4 counterexample: in an environment where only the fragment-shader
compile fails, no diagnostic at all is produced — the code never queries the
fragment compile status (lines 103-105), refuting the claim for the fragment
stage. -/
theorem fragment_failure_unlogged :
    shaderDiagnostics ⟨true, true, true, false, true⟩ = [] ∧
      Env.fragmentCompileOk ⟨true, true, true, false, true⟩ = false := by
  constructor <;> rfl

/-- C4 (amended): for the vertex stage and the program link step, a compile
or link failure causes a diagnostic log (capped at a 512-character buffer) to
be captured and reported, and the process still exits normally; the fragment
stage's compile status is never checked, so its failure alone produces no
diagnostic. -/
theorem shader_failure_diagnostics (env : Env) :
    (env.vertexCompileOk = false → Event.logVertexError 512 ∈ shaderDiagnostics env) ∧
      (env.linkOk = false → Event.logLinkError 512 ∈ shaderDiagnostics env) ∧
      (env.windowOk = true → env.gladOk = true → mainExit env = 0) := by
  obtain ⟨w, g, v, f, l⟩ := env
  refine ⟨fun hv => ?_, fun hl => ?_, fun hw hg => ?_⟩
  · subst hv; cases l <;> simp [shaderDiagnostics]
  · subst hl; cases v <;> simp [shaderDiagnostics]
  · subst hw; subst hg; simp [mainExit]

/-- C4 witness: with the vertex compile, fragment compile and link all
failing (and window/GLAD fine), both checked stages log into the 512-byte
buffer and the exit code is still `0`. -/
theorem shader_failure_diagnostics_witness :
    Event.logVertexError 512 ∈ shaderDiagnostics ⟨true, true, false, false, false⟩ ∧
      Event.logLinkError 512 ∈ shaderDiagnostics ⟨true, true, false, false, false⟩ ∧
      mainExit ⟨true, true, false, false, false⟩ = 0 :=
  ⟨(shader_failure_diagnostics ⟨true, true, false, false, false⟩).1 rfl,
   (shader_failure_diagnostics ⟨true, true, false, false, false⟩).2.1 rfl,
   (shader_failure_diagnostics ⟨true, true, false, false, false⟩).2.2 rfl rfl⟩

/-- C5: the exit code is `0` exactly when window creation and GL loading
succeed (so the loop runs until the close signal and shuts down normally),
`-1` exactly when window creation or function-pointer loading fails, and no
other exit code occurs; the trace ends by returning that code. -/
theorem mainExit_spec (env : Env) (dts : List ℚ) :
    (mainExit env = 0 ↔ env.windowOk = true ∧ env.gladOk = true) ∧
      (mainExit env = -1 ↔ env.windowOk = false ∨ env.gladOk = false) ∧
      (mainExit env = 0 ∨ mainExit env = -1) ∧
      Event.exitWith (mainExit env) ∈ mainTrace env dts := by
  obtain ⟨w, g, v, f, l⟩ := env
  cases w <;> cases g <;> simp [mainExit, mainTrace]

/-- C5 witness: exit codes evaluated in the all-success environment and the
window-failure environment. -/
theorem mainExit_spec_witness :
    mainExit ⟨true, true, true, true, true⟩ = 0 ∧
      mainExit ⟨false, true, true, true, true⟩ = -1 :=
  ⟨(mainExit_spec ⟨true, true, true, true, true⟩ []).1.mpr ⟨rfl, rfl⟩,
   (mainExit_spec ⟨false, true, true, true, true⟩ []).2.1.mpr (Or.inl rfl)⟩

/-- C7 counterexample: the claimed teardown order "buffers, then vertex
arrays" is false — in the code's teardown sequence the vertex-array delete
precedes the buffer delete. -/
theorem teardown_order_claim_false :
    ¬ List.indexOf Event.deleteBuffers shutdownEvents <
        List.indexOf Event.deleteVertexArrays shutdownEvents := by
  decide

/-- C7 (amended): at shutdown, teardown happens in the order vertex arrays,
then buffers, then the program, then the windowing context, as the final
events of the trace before the return; no handle is used after its release,
since every event before the teardown suffix releases nothing. -/
theorem teardown_structure (env : Env) (dts : List ℚ)
    (hw : env.windowOk = true) (hg : env.gladOk = true) :
    shutdownEvents =
        [Event.deleteVertexArrays, Event.deleteBuffers,
          Event.deleteProgram, Event.terminate] ∧
      ∃ pre : List Event,
        mainTrace env dts = pre ++ shutdownEvents ++ [Event.exitWith 0] ∧
          ∀ e ∈ pre, releasesHandle e = false := by
  refine ⟨rfl, shaderDiagnostics env ++ renderLoop 0 dts, ?_, ?_⟩
  · simp [mainTrace, hw, hg, mainExit]
  · intro e he
    rcases List.mem_append.mp he with h | h
    · exact releasesHandle_shaderDiagnostics env e h
    · exact releasesHandle_renderLoop dts 0 e h

/-- C7 witness: the teardown structure evaluated in the all-success
environment with an empty frame list. -/
theorem teardown_structure_witness :
    shutdownEvents =
        [Event.deleteVertexArrays, Event.deleteBuffers,
          Event.deleteProgram, Event.terminate] ∧
      ∃ pre : List Event,
        mainTrace ⟨true, true, true, true, true⟩ [] =
            pre ++ shutdownEvents ++ [Event.exitWith 0] ∧
          ∀ e ∈ pre, releasesHandle e = false :=
  teardown_structure ⟨true, true, true, true, true⟩ [] rfl rfl

/-- C10: on window-creation failure the trace is exactly `glfwTerminate()`
followed by the `-1` return; on GLAD failure (window fine) the trace is the
`-1` return alone, with no `glfwTerminate()` anywhere. -/
theorem failure_paths (env : Env) (dts : List ℚ) :
    (env.windowOk = false →
        mainTrace env dts = [Event.terminate, Event.exitWith (-1)]) ∧
      (env.windowOk = true → env.gladOk = false →
        mainTrace env dts = [Event.exitWith (-1)] ∧
          Event.terminate ∉ mainTrace env dts) := by
  refine ⟨fun hw => ?_, fun hw hg => ?_⟩
  · simp [mainTrace, hw]
  · rw [mainTrace]
    simp [hw, hg]

/-- C10 witness: the two failure traces evaluated at concrete environments. -/
theorem failure_paths_witness :
    mainTrace ⟨false, true, true, true, true⟩ [] =
        [Event.terminate, Event.exitWith (-1)] ∧
      mainTrace ⟨true, false, true, true, true⟩ [] = [Event.exitWith (-1)] :=
  ⟨(failure_paths ⟨false, true, true, true, true⟩ []).1 rfl,
   ((failure_paths ⟨true, false, true, true, true⟩ []).2 rfl rfl).1⟩

end OpenGLApp
